import Mathlib

/-!
Verification of the mini-swe-agent client wrappers.

This file gives a shallow embedding of the three components of the
repository and proves the specified properties about them:

* `src/minisweagent/models/litellm_model.py` — the retrying, cost-tracking
  model query client (`LitellmModel`);
* `src/minisweagent/tools/context_retrieval.py` — the context-retrieval
  HTTP client (`context_retrieval_tool`);
* `src/minisweagent/utils/repository.py` — the repository-management HTTP
  client (`upload_repository`, `delete_repository`).

External collaborators are modelled explicitly: the completion provider is
an oracle of per-attempt outcomes, the `tenacity` retry decorator is an
explicit retry loop with its documented stop/retry semantics, the
`requests` transport is a network outcome value, and the environment is a
partial map from variable names to strings.  Python floats are modelled as
exact rationals and Python machine behaviour (dict lookup, truthiness,
`int()` parsing, exception classes) is embedded explicitly where the code
relies on it.
-/

/-- JSON-like values, used both for message fields and HTTP bodies.
Numbers are modelled as integers (every number appearing in the payloads
of this repository is an integer: line numbers, counts, identifiers). -/
inductive Json where
  | str (s : String)
  | num (n : Int)
  | bool (b : Bool)
  | null
  | arr (elems : List Json)
  | obj (fields : List (String × Json))

/-- Python `repr` of a parsed-JSON value (dicts print with single-quoted
keys, booleans as True/False, None for null).  String escaping corner
cases are not modelled; no claim depends on them. -/
def pyRepr : Json → String
  | .str s => "\x27" ++ s ++ "\x27"
  | .num n => toString n
  | .bool b => if b then "True" else "False"
  | .null => "None"
  | .arr elems => "[" ++ String.intercalate ", " (elems.attach.map (fun e => pyRepr e.1)) ++ "]"
  | .obj fields =>
      "\x7b" ++
        String.intercalate ", "
          (fields.attach.map (fun f => "\x27" ++ f.1.1 ++ "\x27: " ++ pyRepr f.1.2)) ++
      "\x7d"
decreasing_by
  · have h := List.sizeOf_lt_of_mem e.2
    simp only [Json.arr.sizeOf_spec]
    omega
  · rcases f with ⟨⟨k, v⟩, hf⟩
    have h := List.sizeOf_lt_of_mem hf
    simp only [Prod.mk.sizeOf_spec, Json.obj.sizeOf_spec] at h ⊢
    omega

/-- Python `str` of a parsed-JSON value: strings print bare, everything
else prints as its repr (matches f-string interpolation of such values). -/
def pyStr : Json → String
  | .str s => s
  | j => pyRepr j

/-- Field lookup on a JSON object (`d["k"]` / `"k" in d` on a dict);
`none` on non-objects. -/
def Json.getField : Json → String → Option Json
  | .obj fields, k => (fields.find? (fun f => f.1 == k)).map (fun f => f.2)
  | _, _ => none

/-- Python `k in j` for a parsed-JSON value `j`: key membership for dicts,
element equality for lists, substring for strings; `none` models the
TypeError raised on numbers, booleans and None. -/
def pyContainsKey : Json → String → Option Bool
  | .obj fields, k => some (fields.any (fun f => f.1 == k))
  | .arr elems, k => some (elems.any (fun e => match e with | .str s => s == k | _ => false))
  | .str s, k => some (decide (k.data <:+: s.data))
  | _, _ => none

/-! ## Model query client (`litellm_model.py`) -/

/-- A chat message, modelled as a Python dict with string keys and
JSON-like values (an association list; keys are unique in Python dicts,
lookup takes the first binding). -/
abbrev Msg : Type := List (String × Json)

/-- Lookup of `msg.get(k)` / `msg[k]` on a message dict. -/
def lookupField (m : Msg) (k : String) : Option Json :=
  (List.find? (fun f => f.1 == k) m).map (fun f => f.2)

/-- The keys of a message dict, in insertion order. -/
def msgKeys (m : Msg) : List String := m.map (fun f => f.1)

/-- One optional entry of the filtered message: `if k in msg:
filtered_msg[k] = msg[k]` (litellm_model.py lines 77-82). -/
def optEntry (m : Msg) (k : String) : Msg :=
  match lookupField m k with
  | some v => [(k, v)]
  | none => []

/-- The per-message projection of `LitellmModel.query` (litellm_model.py
lines 74-83): keep `role` (`msg["role"]`, KeyError — modelled as `none` —
when absent), `content` (`msg.get("content", "")`), and `tool_calls`,
`tool_call_id`, `name` exactly when present.  All other keys are dropped. -/
def filterMessage (m : Msg) : Option Msg :=
  match lookupField m "role" with
  | none => none
  | some r =>
      some ([("role", r), ("content", (lookupField m "content").getD (Json.str ""))]
        ++ optEntry m "tool_calls" ++ optEntry m "tool_call_id" ++ optEntry m "name")

/-- The filtering loop of `LitellmModel.query` (lines 73-83) over the whole
message list; `none` models the KeyError raised on the first message
without a `role` key. -/
def filterMessages : List Msg → Option (List Msg)
  | [] => some []
  | m :: ms =>
      match filterMessage m, filterMessages ms with
      | some fm, some fms => some (fm :: fms)
      | _, _ => none

/-- The cache-control annotation mode (`Literal["default_end"]`). -/
inductive CacheControlMode where
  | default_end
deriving DecidableEq

/-- Cost tracking mode (`Literal["default", "ignore_errors"]`). -/
inductive CostTracking where
  | default
  | ignore_errors
deriving DecidableEq

/-- Configuration `LitellmModelConfig` (litellm_model.py lines 24-32).  `model_kwargs`
and the registry path do not affect any verified property but are kept for
shape fidelity. -/
structure LitellmModelConfig where
  model_name : String
  model_kwargs : List (String × Json) := []
  set_cache_control : Option CacheControlMode := none
  cost_tracking : CostTracking := .default

/-- Exceptions that can escape `litellm.completion`, classified by the
exception classes named in the `retry_if_not_exception_type` tuple
(litellm_model.py lines 47-57); `retryableError` stands for every other
exception (timeouts, rate limits, transient 5xx, ...), which tenacity
retries. -/
inductive ProviderExc where
  | unsupportedParams (msg : String)
  | notFound (msg : String)
  | permissionDenied (msg : String)
  | contextWindowExceeded (msg : String)
  | apiError (msg : String)
  | authenticationError (msg : String)
  | keyboardInterrupt
  | retryableError (msg : String)

/-- Whether tenacity retries the exception: it retries every exception
that is NOT an instance of the seven listed classes. -/
def isRetryableExc : ProviderExc → Bool
  | .retryableError _ => true
  | _ => false

/-- The completion object returned by the provider.  Per the external
interface (spec section 6) a response exposes `choices[0].message` with
`content` and `tool_calls`; `dump` is the raw `model_dump()` payload. -/
structure ToolFunction where
  name : String
  arguments : String

structure RespToolCall where
  id : String
  type : String
  function : ToolFunction

structure ProviderMessage where
  content : Option String
  tool_calls : Option (List RespToolCall)

structure Response where
  message : ProviderMessage
  dump : Json

/-- The except-clause of `LitellmModel._query` (lines 64-66): an
`AuthenticationError` has configuration guidance appended to its message
before being re-raised; every other outcome passes through unchanged. -/
def augmentExc : ProviderExc → ProviderExc
  | .authenticationError m =>
      .authenticationError
        (m ++ " You can permanently set your API key with `mini-extra config set KEY VALUE`.")
  | e => e

/-- One attempt of `LitellmModel._query`: the provider outcome for this
attempt, with the authentication-error augmentation applied. -/
def queryAttempt (o : Except ProviderExc Response) : Except ProviderExc Response :=
  o.mapError augmentExc

/-- Outcome of the tenacity-wrapped `_query`. -/
inductive RetryResult where
  | success (r : Response)
  | failure (e : ProviderExc)
  | exhausted (e : ProviderExc)

/-- The tenacity retry loop around `_query` (litellm_model.py lines
43-58): attempt `i` (0-based) is made; on success return; on a
non-retryable exception propagate it; on a retryable exception retry while
attempts remain, else surface the final exception (tenacity RetryError).
Returns the number of provider attempts performed and the outcome.
`remaining` counts the further attempts allowed after the current one. -/
def retryAux (oracle : Nat → Except ProviderExc Response) : Nat → Nat → Nat × RetryResult
  | i, remaining =>
      match queryAttempt (oracle i) with
      | .ok r => (1, .success r)
      | .error e =>
          if isRetryableExc e then
            match remaining with
            | 0 => (1, .exhausted e)
            | rem + 1 =>
                let p := retryAux oracle (i + 1) rem
                (p.1 + 1, p.2)
          else (1, .failure e)

/-- Running `_query` under `stop_after_attempt ceiling`: tenacity always makes the
first attempt and consults the stop condition after each failed attempt
(`attempt_number >= ceiling`), so `ceiling` attempts are allowed in total
(one when `ceiling = 0`, matching tenacity, which checks the stop only
after an attempt). -/
def retryRun (ceiling : Nat) (oracle : Nat → Except ProviderExc Response) : Nat × RetryResult :=
  retryAux oracle 0 (ceiling - 1)

/-- The default attempt ceiling:
`int(os.getenv("MSWEA_MODEL_RETRY_STOP_AFTER_ATTEMPT", "10"))`. -/
def defaultRetryCeiling : Nat := 10

/-- Outcome of `litellm.cost_calculator.completion_cost`: a computed cost,
or a raised exception with its message. -/
inductive CostCalcResult where
  | ok (c : Rat)
  | raised (msg : String)

/-- The message of the ValueError raised when the computed cost is not
positive: `f"Cost must be > 0.0, got {cost}"`.  Rational rendering stands
in for Python float formatting. -/
def costValueErrorMessage (c : Rat) : String :=
  "Cost must be > 0.0, got " ++ toString c

/-- The inner exception message interpolated into the fatal cost error. -/
def costInnerMessage : CostCalcResult → String
  | .ok c => costValueErrorMessage c
  | .raised m => m

/-- The RuntimeError message of a fatal cost-tracking failure
(litellm_model.py lines 93-100). -/
def costErrorMessage (cfg : LitellmModelConfig) (inner : String) : String :=
  "Error calculating cost for model " ++ cfg.model_name ++ ": " ++ inner ++
  ", perhaps it\x27s not registered? " ++
  "You can ignore this issue from your config file with cost_tracking: \x27ignore_errors\x27 or " ++
  "globally with export MSWEA_COST_TRACKING=\x27ignore_errors\x27. " ++
  "Alternatively check the \x27Cost tracking\x27 section in the documentation at " ++
  "https://klieret.short.gy/mini-local-models. " ++
  " Still stuck? Please open a github issue at https://github.com/SWE-agent/mini-swe-agent/issues/new/choose!"

/-- The cost phase of `LitellmModel.query` (lines 86-102): a computed cost
must be strictly positive, otherwise a ValueError is raised; any exception
from the try block sets the cost to zero and is fatal (RuntimeError with
the full guidance message) unless `cost_tracking` is `ignore_errors`. -/
def computeCost (cfg : LitellmModelConfig) (cr : CostCalcResult) : Except String Rat :=
  match cr with
  | .ok c =>
      if c ≤ 0 then
        if cfg.cost_tracking = .ignore_errors then .ok 0
        else .error (costErrorMessage cfg (costValueErrorMessage c))
      else .ok c
  | .raised m =>
      if cfg.cost_tracking = .ignore_errors then .ok 0
      else .error (costErrorMessage cfg m)

/-- Exceptions that can escape `LitellmModel.query`. -/
inductive QueryErr where
  | keyError (k : String)
  | provider (e : ProviderExc)
  | retryExhausted (e : ProviderExc)
  | costError (msg : String)

/-- The normalized result dict built by `LitellmModel.query` (lines
108-128): `content` is the message content or empty string, `tool_calls`
is attached only when the provider message carries a non-empty tool-call
list (Python truthiness: a present-but-empty list is omitted), and the raw
response dump rides along in `extra`. -/
structure QueryResult where
  content : String
  tool_calls : Option (List RespToolCall)
  extra_response : Json

def mkResult (r : Response) : QueryResult :=
  { content := (r.message.content).getD ""
    tool_calls :=
      match r.message.tool_calls with
      | some (tc :: tcs) => some (tc :: tcs)
      | _ => none
    extra_response := r.dump }

/-- The per-call inputs of one `LitellmModel.query` invocation that come
from outside the client: the caller-supplied messages, the behaviour of
the completion provider on each attempt, and the behaviour of the cost
calculator on the final response.

`cacheCtl` — Modelled from the spec: `set_cache_control` (module
`minisweagent/models/utils/cache_control.py`, not under `src/`) is a pure
transformation of the message sequence that annotates it with
provider-specific cache-control markers (spec section 4.1 step 1); it is
kept abstract, so every proved property holds for every such
transformation. -/
structure QueryInput where
  messages : List Msg
  cacheCtl : List Msg → List Msg
  oracle : Nat → Except ProviderExc Response
  costRes : CostCalcResult

/-- Steps 1-2 of `LitellmModel.query` (lines 69-83): optional
cache-control annotation followed by the field projection of every
message.  The result is what is transmitted to the provider. -/
def transmittedMessages (cfg : LitellmModelConfig) (inp : QueryInput) : Option (List Msg) :=
  let msgs :=
    match cfg.set_cache_control with
    | some _ => inp.cacheCtl inp.messages
    | none => inp.messages
  filterMessages msgs

/-- The state-independent part of `LitellmModel.query`: everything up to
and including the cost phase.  On success it yields the normalized result
and the cost recorded for this call. -/
def queryOutcome (cfg : LitellmModelConfig) (ceiling : Nat) (inp : QueryInput) :
    Except QueryErr (QueryResult × Rat) :=
  match transmittedMessages cfg inp with
  | none => .error (.keyError "role")
  | some _ =>
      match (retryRun ceiling inp.oracle).2 with
      | .failure e => .error (.provider e)
      | .exhausted e => .error (.retryExhausted e)
      | .success r =>
          match computeCost cfg inp.costRes with
          | .error m => .error (.costError m)
          | .ok c => .ok (mkResult r, c)

/-- Instance state of `LitellmModel`: `self.cost` and `self.n_calls`
(litellm_model.py lines 38-39).  Costs are exact rationals standing in for
Python floats. -/
structure ModelState where
  cost : Rat
  n_calls : Nat

/-- The state set by `LitellmModel.__init__`. -/
def initialModelState : ModelState := ⟨0, 0⟩

/-- The method `LitellmModel.query` (lines 68-130) as a state transformer.  `gs` is
the process-wide accumulator.  Modelled from the spec:
`GLOBAL_MODEL_STATS` (module `minisweagent/models/__init__.py`, not under
`src/`) is a single process-wide accumulator of total cost across all
client instances; `GLOBAL_MODEL_STATS.add(cost)` adds `cost` to it (spec
section 3, ProcessWideStats).  On an exception the instance state and the
accumulator are returned unchanged (in the source every raise happens
before line 103); on success the three updates of lines 103-105 are
applied and the normalized result is returned. -/
def query (cfg : LitellmModelConfig) (ceiling : Nat) (st : ModelState) (gs : Rat)
    (inp : QueryInput) : Except QueryErr QueryResult × ModelState × Rat :=
  match queryOutcome cfg ceiling inp with
  | .error e => (.error e, st, gs)
  | .ok (res, c) => (.ok res, ⟨st.cost + c, st.n_calls + 1⟩, gs + c)

/-- The cost recorded for one call (`cost` at line 104): the computed cost
on success, zero when the call raises (a raising call records nothing). -/
def addedCost (cfg : LitellmModelConfig) (ceiling : Nat) (inp : QueryInput) : Rat :=
  match queryOutcome cfg ceiling inp with
  | .ok (_, c) => c
  | .error _ => 0

/-- Whether one call of `query` completes successfully. -/
def querySucceeds (cfg : LitellmModelConfig) (ceiling : Nat) (inp : QueryInput) : Bool :=
  (queryOutcome cfg ceiling inp).isOk

/-- A sequence of `query` calls on one client instance, threading the
instance state and the process-wide accumulator. -/
def runCalls (cfg : LitellmModelConfig) (ceiling : Nat) :
    ModelState → Rat → List QueryInput → ModelState × Rat
  | st, gs, [] => (st, gs)
  | st, gs, inp :: rest =>
      let q := query cfg ceiling st gs inp
      runCalls cfg ceiling q.2.1 q.2.2 rest

/-- A set of client instances used in one process: each client starts from
the freshly-constructed state and performs its calls, all sharing the
process-wide accumulator. -/
def runClients (ceiling : Nat) :
    Rat → List (LitellmModelConfig × List QueryInput) → List ModelState × Rat
  | gs, [] => ([], gs)
  | gs, c :: cs =>
      let p := runCalls c.1 ceiling initialModelState gs c.2
      let q := runClients ceiling p.2 cs
      (p.1 :: q.1, q.2)

/-! ## CRA HTTP clients (`context_retrieval.py`, `repository.py`) -/

/-- The process environment: `os.environ.get`. -/
abbrev Env : Type := String → Option String

/-- An outbound HTTP request as issued through `requests`. -/
structure HttpRequest where
  method : String
  url : String
  jsonBody : Option Json
  params : List (String × Json)

/-- A received HTTP response: the status code, the body as parsed JSON
(`response.json()`; the error carries the message of the decode exception
it raises), and the raw body text (`response.text`). -/
structure HttpResponse where
  status : Nat
  body : Except String Json
  text : String

/-- Truthiness of a `requests` Response: `Response.__bool__` is `self.ok`,
i.e. `status_code < 400`. -/
def respTruthy (r : HttpResponse) : Bool := r.status < 400

/-- Outcome of issuing one request: a transport-level connection error, a
response, or another `requests.exceptions.RequestException` (timeouts,
invalid URL, ...).  Each carries the string of the exception. -/
inductive NetOutcome where
  | connectionError (msg : String)
  | response (r : HttpResponse)
  | requestException (msg : String)

/-- Strip leading whitespace characters. -/
def dropLeadingWs : List Char → List Char
  | [] => []
  | c :: cs => if c.isWhitespace then dropLeadingWs cs else c :: cs

/-- Python `str.strip()` over the character list. -/
def pyStrip (cs : List Char) : List Char :=
  (dropLeadingWs (dropLeadingWs cs.reverse)).reverse

/-- Digit-run parser for Python `int()`: decimal digits with single
underscores allowed only between digits.  `lastDigit` records whether the
previous character was a digit. -/
def pyIntDigits : List Char → Nat → Bool → Option Nat
  | [], acc, lastDigit => if lastDigit then some acc else none
  | c :: cs, acc, lastDigit =>
      if c.isDigit then pyIntDigits cs (acc * 10 + (c.toNat - 48)) true
      else if c == '_' then
        if lastDigit then pyIntDigits cs acc false else none
      else none

/-- Python `int(s)` for base 10: optional surrounding whitespace, optional
single sign, then a digit run; `none` models the ValueError raised on any
other shape.  (Non-ASCII digits are not modelled.) -/
def pyInt (s : String) : Option Int :=
  match pyStrip s.data with
  | '+' :: rest => (pyIntDigits rest 0 false).map (fun n => Int.ofNat n)
  | '-' :: rest => (pyIntDigits rest 0 false).map (fun n => -(Int.ofNat n))
  | rest => (pyIntDigits rest 0 false).map (fun n => Int.ofNat n)

/-- The ValueError message of a failed `int()` conversion:
`invalid literal for int() with base 10` followed by the repr of the input. -/
def intParseErrorMessage (s : String) : String :=
  "invalid literal for int() with base 10: \x27" ++ s ++ "\x27"

/-- Exceptions escaping `context_retrieval_tool`: the domain error, the
plain ValueError of a failed `int()` conversion, and the plain KeyError of
`response.json()["data"]` on an envelope without a `data` field. -/
inductive CtxError where
  | contextRetrievalError (msg : String)
  | valueError (msg : String)
  | keyError (k : String)

/-- Exceptions escaping the repository functions: the domain error, the
plain KeyError of `response.json()["data"]`, and the TypeError of `"k" in
data` on a non-container value. -/
inductive RepoError where
  | repositoryError (msg : String)
  | keyError (k : String)
  | typeError

/-- The helper `_get_cra_retrieval_url` (context_retrieval.py lines 13-18): read
`CRA_BASE_URL` at call time; a missing or empty value (Python falsiness)
raises the domain error. -/
def get_cra_retrieval_url (env : Env) : Except CtxError String :=
  match env "CRA_BASE_URL" with
  | none => .error (.contextRetrievalError "CRA_BASE_URL environment variable is not set")
  | some s =>
      if s = "" then .error (.contextRetrievalError "CRA_BASE_URL environment variable is not set")
      else .ok (s ++ "/context/retrieve")

/-- The helper `get_cra_base_url` (repository.py lines 13-18). -/
def get_cra_base_url (env : Env) : Except RepoError String :=
  match env "CRA_BASE_URL" with
  | none => .error (.repositoryError "CRA_BASE_URL environment variable is not set")
  | some s =>
      if s = "" then .error (.repositoryError "CRA_BASE_URL environment variable is not set")
      else .ok s

/-- The function `context_retrieval_tool` (context_retrieval.py lines 21-105), with
the network modelled as the outcome `net` of the single POST it issues.
The second component is the list of requests actually sent (empty when the
function fails before reaching `requests.post`).

Faithfulness notes mirroring the source:
* the `int(repository_id)` conversion (line 64) happens outside the
  `try`, so its ValueError propagates unwrapped;
* in the HTTPError handler (lines 90-99), `response.status_code if
  response else "unknown"` and `if response:` test `requests` Response
  truthiness, which is `status_code < 400` — always false in that
  handler — so the message falls back to "unknown" and the JSON error
  field is never consulted;
* a JSON decode failure of a 2xx body raises
  `requests.exceptions.JSONDecodeError`, a `RequestException`, so the
  `except RequestException` clause (line 101) catches it before the
  `except ValueError` clause. -/
def context_retrieval_tool (env : Env) (query : String) (max_refined_query : Int)
    (net : NetOutcome) : Except CtxError Json × List HttpRequest :=
  match get_cra_retrieval_url env with
  | .error e => (.error e, [])
  | .ok cra_url =>
      match env "CRA_REPOSITORY_ID" with
      | none =>
          (.error (.contextRetrievalError
            "CRA_REPOSITORY_ID environment variable is not set. Repository must be uploaded first."), [])
      | some rid =>
          if rid = "" then
            (.error (.contextRetrievalError
              "CRA_REPOSITORY_ID environment variable is not set. Repository must be uploaded first."), [])
          else
            match pyInt rid with
            | none => (.error (.valueError (intParseErrorMessage rid)), [])
            | some ridN =>
                let payload := Json.obj
                  [("query", .str query),
                   ("max_refined_query_loop", .num max_refined_query),
                   ("repository_id", .num ridN)]
                let req : HttpRequest :=
                  { method := "POST", url := cra_url, jsonBody := some payload, params := [] }
                match net with
                | .connectionError em =>
                    (.error (.contextRetrievalError
                      ("Failed to connect to CRA at " ++ cra_url ++ ": " ++ em)), [req])
                | .requestException em =>
                    (.error (.contextRetrievalError ("CRA request failed: " ++ em)), [req])
                | .response resp =>
                    if 400 ≤ resp.status ∧ resp.status < 600 then
                      let statusStr := if respTruthy resp then toString resp.status else "unknown"
                      let base := "CRA returned error status " ++ statusStr
                      let msg :=
                        if respTruthy resp then
                          match resp.body with
                          | .ok j =>
                              match j.getField "error" with
                              | some e => base ++ ": " ++ pyStr e
                              | none => base
                          | .error _ => base ++ ": " ++ resp.text
                        else base
                      (.error (.contextRetrievalError msg), [req])
                    else
                      match resp.body with
                      | .error em =>
                          (.error (.contextRetrievalError ("CRA request failed: " ++ em)), [req])
                      | .ok j =>
                          match j.getField "data" with
                          | none => (.error (.keyError "data"), [req])
                          | some d => (.ok d, [req])

/-- The function `upload_repository` (repository.py lines 21-97), network modelled as
the outcome of the single POST.  The missing-`repository_id` check raises
a `RepositoryError` from inside the `try`, which no except clause catches
(it is not a `requests` exception), so it propagates.  A JSON decode
failure of a 2xx body is caught by the `except RequestException` clause
(see `context_retrieval_tool`). -/
def upload_repository (env : Env) (https_url : String) (commit_id : Option String)
    (net : NetOutcome) : Except RepoError Json × List HttpRequest :=
  match get_cra_base_url env with
  | .error e => (.error e, [])
  | .ok base_url =>
      let endpoint := base_url ++ "/repository/upload/"
      let payload := Json.obj
        [("https_url", .str https_url),
         ("commit_id", match commit_id with | some c => .str c | none => .null)]
      let req : HttpRequest :=
        { method := "POST", url := endpoint, jsonBody := some payload, params := [] }
      match net with
      | .connectionError em =>
          (.error (.repositoryError ("Failed to connect to CRA at " ++ endpoint ++ ": " ++ em)), [req])
      | .requestException em =>
          (.error (.repositoryError ("Upload request failed: " ++ em)), [req])
      | .response resp =>
          if 400 ≤ resp.status ∧ resp.status < 600 then
            let base := "Upload failed with status " ++ toString resp.status
            let msg :=
              match resp.body with
              | .ok j =>
                  match j.getField "error" with
                  | some e => base ++ ": " ++ pyStr e
                  | none =>
                      match j.getField "detail" with
                      | some d => base ++ ": " ++ pyStr d
                      | none => base
              | .error _ => base ++ ": " ++ resp.text
            (.error (.repositoryError msg), [req])
          else
            match resp.body with
            | .error em => (.error (.repositoryError ("Upload request failed: " ++ em)), [req])
            | .ok j =>
                match j.getField "data" with
                | none => (.error (.keyError "data"), [req])
                | some d =>
                    match pyContainsKey d "repository_id" with
                    | none => (.error .typeError, [req])
                    | some false =>
                        (.error (.repositoryError
                          ("Invalid upload response: missing \x27repository_id\x27 field. Got: "
                            ++ pyStr d)), [req])
                    | some true => (.ok d, [req])

/-- The function `delete_repository` (repository.py lines 100-172), network modelled
as the outcome of the single DELETE.  The whole parsed body is returned
(no `data` unwrapping).  A JSON decode failure of a 2xx body is caught by
the `except RequestException` clause. -/
def delete_repository (env : Env) (repository_id : Int) (force : Bool)
    (net : NetOutcome) : Except RepoError Json × List HttpRequest :=
  match get_cra_base_url env with
  | .error e => (.error e, [])
  | .ok base_url =>
      let endpoint := base_url ++ "/repository/delete/"
      let req : HttpRequest :=
        { method := "DELETE", url := endpoint, jsonBody := none,
          params := [("repository_id", .num repository_id), ("force", .bool force)] }
      match net with
      | .connectionError em =>
          (.error (.repositoryError ("Failed to connect to CRA at " ++ endpoint ++ ": " ++ em)), [req])
      | .requestException em =>
          (.error (.repositoryError ("Deletion request failed: " ++ em)), [req])
      | .response resp =>
          if 400 ≤ resp.status ∧ resp.status < 600 then
            let base := "Deletion failed with status " ++ toString resp.status
            let msg :=
              match resp.body with
              | .ok j =>
                  match j.getField "error" with
                  | some e => base ++ ": " ++ pyStr e
                  | none =>
                      match j.getField "detail" with
                      | some d => base ++ ": " ++ pyStr d
                      | none => base
              | .error _ => base ++ ": " ++ resp.text
            (.error (.repositoryError msg), [req])
          else
            match resp.body with
            | .error em => (.error (.repositoryError ("Deletion request failed: " ++ em)), [req])
            | .ok j => (.ok j, [req])

/-! ## Helper lemmas -/

lemma isRetryableExc_augmentExc (e : ProviderExc) :
    isRetryableExc (augmentExc e) = isRetryableExc e := by
  cases e <;> rfl

lemma retryAux_success (oracle : Nat → Except ProviderExc Response) (r : Response) :
    ∀ (m i remaining : Nat),
      (∀ j, j < m → ∃ e, oracle (i + j) = .error e ∧ isRetryableExc e = true) →
      oracle (i + m) = .ok r →
      m ≤ remaining →
      retryAux oracle i remaining = (m + 1, .success r)
  | 0, i, remaining, _, hok, _ => by
      rw [retryAux]
      simp only [Nat.add_zero] at hok
      simp [queryAttempt, hok, Except.mapError]
  | m + 1, i, remaining, hfail, hok, hle => by
      obtain ⟨e, he, hret⟩ := hfail 0 (Nat.succ_pos m)
      simp only [Nat.add_zero] at he
      obtain ⟨rem, rfl⟩ : ∃ rem, remaining = rem + 1 :=
        ⟨remaining - 1, by omega⟩
      have ih := retryAux_success oracle r m (i + 1) rem
        (fun j hj => by
          obtain ⟨e', he', hret'⟩ := hfail (j + 1) (by omega)
          exact ⟨e', by rw [show i + 1 + j = i + (j + 1) by omega]; exact he', hret'⟩)
        (by rw [show i + 1 + m = i + (m + 1) by omega]; exact hok)
        (by omega)
      rw [retryAux]
      simp only [queryAttempt, he, Except.mapError, isRetryableExc_augmentExc, hret, if_true]
      simp [ih]

/-! ## Claim C2: retry policy -/

/-- Claim C2: For every execution of `LitellmModel.query`, if the provider
call fails with a retryable error on the first k-1 attempts and succeeds
on attempt k with k at most the attempt ceiling (default 10), the query
performs exactly k provider attempts and returns the success result; if it
fails with a non-retryable error (unsupported-parameters, not-found,
permission-denied, context-window-exceeded, generic API error,
authentication error, or user interruption — exactly the exceptions with
`isRetryableExc` false), it performs exactly 1 attempt and the error
(after the authentication-guidance augmentation of `_query`) propagates
immediately. -/
theorem litellm_retry_policy
    (ceiling k : Nat) (oracleA oracleB : Nat → Except ProviderExc Response)
    (r : Response) (e : ProviderExc)
    (hk1 : 1 ≤ k) (hk2 : k ≤ ceiling)
    (hfail : ∀ j, j < k - 1 → ∃ e', oracleA j = .error e' ∧ isRetryableExc e' = true)
    (hok : oracleA (k - 1) = .ok r)
    (hnr1 : oracleB 0 = .error e) (hnr2 : isRetryableExc e = false) :
    retryRun ceiling oracleA = (k, .success r)
    ∧ retryRun ceiling oracleB = (1, .failure (augmentExc e)) := by
  constructor
  · have h := retryAux_success oracleA r (k - 1) 0 (ceiling - 1)
      (fun j hj => by simpa using hfail j hj) (by simpa using hok) (by omega)
    rw [retryRun, h]
    congr 1
    omega
  · rw [retryRun, retryAux]
    simp [queryAttempt, hnr1, Except.mapError, isRetryableExc_augmentExc, hnr2]

/-- A sample successful provider response used by concrete witnesses. -/
def sampleResponse : Response :=
  { message := { content := some "hello", tool_calls := none }, dump := Json.null }

/-- A provider that fails twice with a transient error, then succeeds. -/
def c2oracleA : Nat → Except ProviderExc Response :=
  fun i => if i < 2 then .error (.retryableError "rate limited") else .ok sampleResponse

/-- A provider that fails with a non-retryable generic API error. -/
def c2oracleB : Nat → Except ProviderExc Response :=
  fun _ => .error (.apiError "bad gateway")

theorem litellm_retry_policy_witness :
    retryRun 10 c2oracleA = (3, .success sampleResponse)
    ∧ retryRun 10 c2oracleB = (1, .failure (.apiError "bad gateway")) :=
  litellm_retry_policy 10 3 c2oracleA c2oracleB sampleResponse (.apiError "bad gateway")
    (by decide) (by decide)
    (fun j hj => ⟨.retryableError "rate limited", by simp [c2oracleA]; omega, rfl⟩)
    (by rfl) (by rfl) (by rfl)

/-! ## Claim C1: cost accounting -/

lemma runCalls_spec (cfg : LitellmModelConfig) (ceiling : Nat) :
    ∀ (inputs : List QueryInput) (st : ModelState) (gs : Rat),
      (runCalls cfg ceiling st gs inputs).1.cost
          = st.cost + (inputs.map (addedCost cfg ceiling)).sum
      ∧ (runCalls cfg ceiling st gs inputs).2
          = gs + (inputs.map (addedCost cfg ceiling)).sum
      ∧ ((∀ inp ∈ inputs, querySucceeds cfg ceiling inp = true) →
          (runCalls cfg ceiling st gs inputs).1.n_calls = st.n_calls + inputs.length)
  | [], st, gs => by simp [runCalls]
  | inp :: rest, st, gs => by
      have ih := runCalls_spec cfg ceiling rest
      rcases hq : queryOutcome cfg ceiling inp with e | ⟨res, c⟩
      · have hquery : query cfg ceiling st gs inp = (.error e, st, gs) := by
          rw [query, hq]
        have hadd : addedCost cfg ceiling inp = 0 := by rw [addedCost, hq]
        refine ⟨?_, ?_, ?_⟩
        · rw [runCalls, hquery]
          simpa [hadd] using (ih st gs).1
        · rw [runCalls, hquery]
          simpa [hadd] using (ih st gs).2.1
        · intro hsucc
          exact absurd (hsucc inp (by simp))
            (by simp [querySucceeds, hq, Except.isOk, Except.toBool])
      · have hquery : query cfg ceiling st gs inp
            = (.ok res, ⟨st.cost + c, st.n_calls + 1⟩, gs + c) := by
          rw [query, hq]
        have hadd : addedCost cfg ceiling inp = c := by rw [addedCost, hq]
        refine ⟨?_, ?_, ?_⟩
        · rw [runCalls, hquery]
          have := (ih ⟨st.cost + c, st.n_calls + 1⟩ (gs + c)).1
          rw [this]
          simp [hadd]
          ring
        · rw [runCalls, hquery]
          have := (ih ⟨st.cost + c, st.n_calls + 1⟩ (gs + c)).2.1
          rw [this]
          simp [hadd]
          ring
        · intro hsucc
          rw [runCalls, hquery]
          have := (ih ⟨st.cost + c, st.n_calls + 1⟩ (gs + c)).2.2
            (fun x hx => hsucc x (by simp [hx]))
          rw [this]
          simp
          omega

lemma runClients_global (ceiling : Nat) :
    ∀ (clients : List (LitellmModelConfig × List QueryInput)) (gs : Rat),
      (runClients ceiling gs clients).2
        = gs + ((runClients ceiling gs clients).1.map ModelState.cost).sum
  | [], gs => by simp [runClients]
  | c :: cs, gs => by
      rw [runClients]
      have hcalls := runCalls_spec c.1 ceiling c.2 initialModelState gs
      have hcost : (runCalls c.1 ceiling initialModelState gs c.2).1.cost
          = (c.2.map (addedCost c.1 ceiling)).sum := by
        simpa [initialModelState] using hcalls.1
      have hgs : (runCalls c.1 ceiling initialModelState gs c.2).2
          = gs + (c.2.map (addedCost c.1 ceiling)).sum := hcalls.2.1
      have ih := runClients_global ceiling cs (runCalls c.1 ceiling initialModelState gs c.2).2
      simp only [List.map_cons, List.sum_cons]
      rw [ih, hgs, hcost]
      ring

/-- Claim C1: for every sequence of N successful calls to
`LitellmModel.query` on one freshly-constructed client instance, the call
counter `n_calls` equals N, the cumulative cost equals the sum of the
per-call costs, and, across any set of client instances sharing the
process-wide accumulator (initially zero), the accumulator equals the sum
of all their individual cumulative costs (the latter even without a
success assumption, since failing calls add to neither side). -/
theorem litellm_cost_accounting
    (cfg : LitellmModelConfig) (ceiling : Nat) (inputs : List QueryInput) (gs0 : Rat)
    (hsucc : ∀ inp ∈ inputs, querySucceeds cfg ceiling inp = true) :
    (runCalls cfg ceiling initialModelState gs0 inputs).1.n_calls = inputs.length
    ∧ (runCalls cfg ceiling initialModelState gs0 inputs).1.cost
        = (inputs.map (addedCost cfg ceiling)).sum
    ∧ (runCalls cfg ceiling initialModelState gs0 inputs).2
        = gs0 + (inputs.map (addedCost cfg ceiling)).sum
    ∧ ∀ (clients : List (LitellmModelConfig × List QueryInput)),
        (runClients ceiling 0 clients).2
          = ((runClients ceiling 0 clients).1.map ModelState.cost).sum := by
  have h := runCalls_spec cfg ceiling inputs initialModelState gs0
  refine ⟨?_, ?_, h.2.1, ?_⟩
  · simpa [initialModelState] using h.2.2 hsucc
  · simpa [initialModelState] using h.1
  · intro clients
    simpa using runClients_global ceiling clients 0

/-- A well-formed chat message used by concrete witnesses. -/
def sampleMsg : Msg := [("role", Json.str "user"), ("content", Json.str "hi")]

/-- One successful query invocation whose cost calculation yields `c`. -/
def c1input (c : Rat) : QueryInput :=
  { messages := [sampleMsg]
    cacheCtl := fun ms => ms
    oracle := fun _ => .ok sampleResponse
    costRes := .ok c }

def c1cfg : LitellmModelConfig := { model_name := "gpt-test" }

def c1inputs : List QueryInput := [c1input 1, c1input 2]

theorem litellm_cost_accounting_witness :
    (∀ inp ∈ c1inputs, querySucceeds c1cfg 10 inp = true)
    ∧ (runCalls c1cfg 10 initialModelState 0 c1inputs).1.n_calls = 2
    ∧ (runCalls c1cfg 10 initialModelState 0 c1inputs).1.cost = 3
    ∧ (runCalls c1cfg 10 initialModelState 0 c1inputs).2 = 0 + 3 := by
  have hsucc : ∀ inp ∈ c1inputs, querySucceeds c1cfg 10 inp = true := by
    intro inp h
    rcases List.mem_cons.mp h with rfl | h
    · rfl
    rcases List.mem_cons.mp h with rfl | h
    · rfl
    · cases h
  have h := litellm_cost_accounting c1cfg 10 c1inputs 0 hsucc
  have e1 : addedCost c1cfg 10 (c1input 1) = 1 := rfl
  have e2 : addedCost c1cfg 10 (c1input 2) = 2 := rfl
  refine ⟨hsucc, h.1, ?_, ?_⟩
  · rw [h.2.1]
    simp [c1inputs, e1, e2]
    norm_num
  · rw [h.2.2.1]
    simp [c1inputs, e1, e2]
    norm_num

/-! ## Claim C3: cost-calculation failures -/

/-- The cost phase input is a failure: the calculation raised, or the
computed cost is not positive. -/
def badCostRes (cr : CostCalcResult) : Prop :=
  (∃ m, cr = .raised m) ∨ (∃ c, cr = .ok c ∧ c ≤ 0)

/-- Claim C3: for every provider response whose computed cost is ≤ 0 or
whose cost calculation raises, with cost-tracking mode `default` the query
raises the fatal cost error and leaves the state untouched, while with
mode `ignore_errors` the query completes, records a cost of zero for the
call (so the cumulative cost neither decreases nor can become negative)
and still increments the call counter. -/
theorem litellm_cost_failure_handling
    (cfg : LitellmModelConfig) (ceiling : Nat) (st : ModelState) (gs : Rat)
    (inp : QueryInput) (r : Response)
    (hmsgs : (transmittedMessages cfg inp).isSome = true)
    (hretry : (retryRun ceiling inp.oracle).2 = .success r)
    (hbad : badCostRes inp.costRes) :
    (cfg.cost_tracking = .default →
        (query cfg ceiling st gs inp).1
          = .error (.costError (costErrorMessage cfg (costInnerMessage inp.costRes)))
        ∧ (query cfg ceiling st gs inp).2.1 = st
        ∧ (query cfg ceiling st gs inp).2.2 = gs)
    ∧ (cfg.cost_tracking = .ignore_errors →
        (query cfg ceiling st gs inp).1 = .ok (mkResult r)
        ∧ (query cfg ceiling st gs inp).2.1.cost = st.cost
        ∧ (query cfg ceiling st gs inp).2.1.n_calls = st.n_calls + 1
        ∧ (query cfg ceiling st gs inp).2.2 = gs
        ∧ st.cost ≤ (query cfg ceiling st gs inp).2.1.cost
        ∧ (0 ≤ st.cost → 0 ≤ (query cfg ceiling st gs inp).2.1.cost)) := by
  obtain ⟨msgs, hm⟩ := Option.isSome_iff_exists.mp hmsgs
  constructor
  · intro hmode
    have hcc : computeCost cfg inp.costRes
        = .error (costErrorMessage cfg (costInnerMessage inp.costRes)) := by
      rcases hbad with ⟨m, hcr⟩ | ⟨c, hcr, hc⟩
      · rw [hcr]; simp [computeCost, hmode, costInnerMessage]
      · rw [hcr]; simp [computeCost, hmode, costInnerMessage, hc]
    have hout : queryOutcome cfg ceiling inp
        = .error (.costError (costErrorMessage cfg (costInnerMessage inp.costRes))) := by
      simp only [queryOutcome, hm, hretry, hcc]
    rw [query, hout]
    exact ⟨rfl, rfl, rfl⟩
  · intro hmode
    have hcc : computeCost cfg inp.costRes = .ok 0 := by
      rcases hbad with ⟨m, hcr⟩ | ⟨c, hcr, hc⟩
      · rw [hcr]; simp [computeCost, hmode]
      · rw [hcr]; simp [computeCost, hmode, hc]
    have hout : queryOutcome cfg ceiling inp = .ok (mkResult r, 0) := by
      simp only [queryOutcome, hm, hretry, hcc]
    rw [query, hout]
    simp

/-- A query invocation whose cost calculation raises. -/
def c3input : QueryInput :=
  { messages := [sampleMsg]
    cacheCtl := fun ms => ms
    oracle := fun _ => .ok sampleResponse
    costRes := .raised "no pricing" }

def c3cfgIgnore : LitellmModelConfig :=
  { model_name := "gpt-test", cost_tracking := .ignore_errors }

theorem litellm_cost_failure_handling_witness :
    (query c1cfg 10 initialModelState 0 c3input).1
      = .error (.costError (costErrorMessage c1cfg "no pricing"))
    ∧ (query c3cfgIgnore 10 ⟨2, 1⟩ 5 c3input).1 = .ok (mkResult sampleResponse)
    ∧ (query c3cfgIgnore 10 ⟨2, 1⟩ 5 c3input).2.1.cost = 2
    ∧ (query c3cfgIgnore 10 ⟨2, 1⟩ 5 c3input).2.1.n_calls = 2
    ∧ (query c3cfgIgnore 10 ⟨2, 1⟩ 5 c3input).2.2 = 5 := by
  have h1 := litellm_cost_failure_handling c1cfg 10 initialModelState 0 c3input
    sampleResponse (by rfl) (by rfl) (Or.inl ⟨"no pricing", rfl⟩)
  have h2 := litellm_cost_failure_handling c3cfgIgnore 10 ⟨2, 1⟩ 5 c3input
    sampleResponse (by rfl) (by rfl) (Or.inl ⟨"no pricing", rfl⟩)
  have h2' := h2.2 rfl
  exact ⟨(h1.1 rfl).1, h2'.1, h2'.2.1, h2'.2.2.1, h2'.2.2.2.1⟩

/-! ## Claim C5: no state mutation on failing calls -/

/-- Claim C5: every call to `LitellmModel.query` that raises an exception
leaves the instance state (`cost`, `n_calls`) and the process-wide
accumulator exactly as they were; only successfully completing calls
mutate them. -/
theorem litellm_state_frozen_on_error
    (cfg : LitellmModelConfig) (ceiling : Nat) (st : ModelState) (gs : Rat)
    (inp : QueryInput) (e : QueryErr)
    (h : (query cfg ceiling st gs inp).1 = .error e) :
    (query cfg ceiling st gs inp).2.1 = st ∧ (query cfg ceiling st gs inp).2.2 = gs := by
  rcases hq : queryOutcome cfg ceiling inp with e2 | ⟨res, c⟩
  · rw [query, hq]
    exact ⟨rfl, rfl⟩
  · rw [query, hq] at h
    exact absurd h (by simp)

theorem litellm_state_frozen_on_error_witness :
    (query c1cfg 10 ⟨5, 3⟩ 7 c3input).2.1 = ⟨5, 3⟩
    ∧ (query c1cfg 10 ⟨5, 3⟩ 7 c3input).2.2 = 7 :=
  litellm_state_frozen_on_error c1cfg 10 ⟨5, 3⟩ 7 c3input
    (.costError (costErrorMessage c1cfg "no pricing")) (by rfl)

/-! ## Claim C4: message projection -/

lemma lookupField_cons (k2 : String) (v : Json) (rest : Msg) (k : String) :
    lookupField ((k2, v) :: rest) k = if k2 = k then some v else lookupField rest k := by
  by_cases h : k2 = k
  · rw [if_pos h]
    unfold lookupField
    rw [List.find?_cons_of_pos _ (by simpa using h)]
    rfl
  · rw [if_neg h]
    unfold lookupField
    rw [List.find?_cons_of_neg _ (by simpa using h)]

lemma lookupField_append (a b : Msg) (k : String) :
    lookupField (a ++ b) k = (lookupField a k).or (lookupField b k) := by
  unfold lookupField
  rw [List.find?_append]
  cases List.find? (fun f => f.1 == k) a <;> rfl

lemma lookupField_optEntry_self (m : Msg) (k : String) :
    lookupField (optEntry m k) k = lookupField m k := by
  unfold optEntry
  cases h : lookupField m k
  · rfl
  · rw [lookupField_cons, if_pos rfl]

lemma lookupField_optEntry_ne (m : Msg) (k0 k : String) (h : k0 ≠ k) :
    lookupField (optEntry m k0) k = none := by
  unfold optEntry
  cases lookupField m k0
  · rfl
  · rw [lookupField_cons, if_neg h]
    rfl

lemma mem_msgKeys_append (a b : Msg) (k : String) :
    k ∈ msgKeys (a ++ b) ↔ k ∈ msgKeys a ∨ k ∈ msgKeys b := by
  simp [msgKeys]

lemma mem_msgKeys_optEntry (m : Msg) (k0 k : String) :
    k ∈ msgKeys (optEntry m k0) ↔ (k = k0 ∧ (lookupField m k0).isSome = true) := by
  unfold optEntry
  cases h : lookupField m k0 <;> simp [msgKeys]

/-- The key- and value-exactness of the per-message projection. -/
lemma filterMessage_spec (m fm : Msg) (h : filterMessage m = some fm) :
    (∀ k, k ∈ msgKeys fm ↔
        (k = "role" ∨ k = "content" ∨
          ((k = "tool_calls" ∨ k = "tool_call_id" ∨ k = "name")
            ∧ (lookupField m k).isSome = true)))
    ∧ lookupField fm "role" = lookupField m "role"
    ∧ lookupField fm "content" = some ((lookupField m "content").getD (Json.str ""))
    ∧ lookupField fm "tool_calls" = lookupField m "tool_calls"
    ∧ lookupField fm "tool_call_id" = lookupField m "tool_call_id"
    ∧ lookupField fm "name" = lookupField m "name" := by
  unfold filterMessage at h
  rcases hrole : lookupField m "role" with _ | r
  · rw [hrole] at h
    cases h
  · rw [hrole] at h
    injection h with h
    subst h
    refine ⟨?_, ?_, ?_, ?_, ?_, ?_⟩
    · intro k
      rw [mem_msgKeys_append, mem_msgKeys_append, mem_msgKeys_append,
        mem_msgKeys_optEntry, mem_msgKeys_optEntry, mem_msgKeys_optEntry]
      have hbase : k ∈ msgKeys
          [("role", r), ("content", (lookupField m "content").getD (Json.str ""))]
          ↔ (k = "role" ∨ k = "content") := by
        simp [msgKeys]
      rw [hbase]
      constructor
      · intro hmem
        rcases hmem with ((hA | ⟨rfl, hs⟩) | ⟨rfl, hs⟩) | ⟨rfl, hs⟩
        · rcases hA with h | h
          · exact Or.inl h
          · exact Or.inr (Or.inl h)
        · exact Or.inr (Or.inr ⟨Or.inl rfl, hs⟩)
        · exact Or.inr (Or.inr ⟨Or.inr (Or.inl rfl), hs⟩)
        · exact Or.inr (Or.inr ⟨Or.inr (Or.inr rfl), hs⟩)
      · intro hmem
        rcases hmem with h | h | ⟨h2, hs⟩
        · exact Or.inl (Or.inl (Or.inl (Or.inl h)))
        · exact Or.inl (Or.inl (Or.inl (Or.inr h)))
        · rcases h2 with rfl | rfl | rfl
          · exact Or.inl (Or.inl (Or.inr ⟨rfl, hs⟩))
          · exact Or.inl (Or.inr ⟨rfl, hs⟩)
          · exact Or.inr ⟨rfl, hs⟩
    · rw [lookupField_append, lookupField_append, lookupField_append,
        lookupField_cons, if_pos rfl]
      rfl
    · rw [lookupField_append, lookupField_append, lookupField_append,
        lookupField_cons, if_neg (by decide), lookupField_cons, if_pos rfl]
      rfl
    · rw [lookupField_append, lookupField_append, lookupField_append,
        lookupField_optEntry_self,
        lookupField_optEntry_ne m "tool_call_id" "tool_calls" (by decide),
        lookupField_optEntry_ne m "name" "tool_calls" (by decide)]
      have hb : lookupField
          [("role", r), ("content", (lookupField m "content").getD (Json.str ""))]
          "tool_calls" = none := by
        rw [lookupField_cons, if_neg (by decide), lookupField_cons, if_neg (by decide)]
        rfl
      rw [hb]
      cases lookupField m "tool_calls" <;> rfl
    · rw [lookupField_append, lookupField_append, lookupField_append,
        lookupField_optEntry_self,
        lookupField_optEntry_ne m "tool_calls" "tool_call_id" (by decide),
        lookupField_optEntry_ne m "name" "tool_call_id" (by decide)]
      have hb : lookupField
          [("role", r), ("content", (lookupField m "content").getD (Json.str ""))]
          "tool_call_id" = none := by
        rw [lookupField_cons, if_neg (by decide), lookupField_cons, if_neg (by decide)]
        rfl
      rw [hb]
      cases lookupField m "tool_call_id" <;> rfl
    · rw [lookupField_append, lookupField_append, lookupField_append,
        lookupField_optEntry_self,
        lookupField_optEntry_ne m "tool_calls" "name" (by decide),
        lookupField_optEntry_ne m "tool_call_id" "name" (by decide)]
      have hb : lookupField
          [("role", r), ("content", (lookupField m "content").getD (Json.str ""))]
          "name" = none := by
        rw [lookupField_cons, if_neg (by decide), lookupField_cons, if_neg (by decide)]
        rfl
      rw [hb]
      cases lookupField m "name" <;> rfl

lemma filterMessages_pointwise :
    ∀ (msgs out : List Msg), filterMessages msgs = some out →
      msgs.length = out.length
      ∧ ∀ i (h1 : i < msgs.length) (h2 : i < out.length),
          filterMessage (msgs.get ⟨i, h1⟩) = some (out.get ⟨i, h2⟩)
  | [], out, h => by
      injection h with h
      subst h
      exact ⟨rfl, fun i h1 _ => absurd h1 (by simp)⟩
  | m :: ms, out, h => by
      unfold filterMessages at h
      rcases hfm : filterMessage m with _ | fm
      · rw [hfm] at h
        cases h
      · rw [hfm] at h
        rcases hfms : filterMessages ms with _ | fms
        · rw [hfms] at h
          cases h
        · rw [hfms] at h
          injection h with h
          subst h
          have ih := filterMessages_pointwise ms fms hfms
          refine ⟨by simpa using ih.1, ?_⟩
          intro i h1 h2
          match i with
          | 0 => simpa using hfm
          | i + 1 => exact ih.2 i (by simpa using h1) (by simpa using h2)

/-- Claim C4: every message transmitted to the provider by
`LitellmModel.query` (the output of the projection loop applied to the
message sequence) contains exactly the keys `role`, `content` (the empty
string standing in when `content` is absent in the input message) and,
only when present in the input message, `tool_calls`, `tool_call_id` and
`name`, each carrying the value from the input message; every other key of the
input message is dropped. -/
theorem litellm_message_projection (msgs out : List Msg)
    (h : filterMessages msgs = some out) :
    msgs.length = out.length
    ∧ ∀ i (h1 : i < msgs.length) (h2 : i < out.length),
        (∀ k, k ∈ msgKeys (out.get ⟨i, h2⟩) ↔
            (k = "role" ∨ k = "content" ∨
              ((k = "tool_calls" ∨ k = "tool_call_id" ∨ k = "name")
                ∧ (lookupField (msgs.get ⟨i, h1⟩) k).isSome = true)))
        ∧ lookupField (out.get ⟨i, h2⟩) "role" = lookupField (msgs.get ⟨i, h1⟩) "role"
        ∧ lookupField (out.get ⟨i, h2⟩) "content"
            = some ((lookupField (msgs.get ⟨i, h1⟩) "content").getD (Json.str ""))
        ∧ lookupField (out.get ⟨i, h2⟩) "tool_calls"
            = lookupField (msgs.get ⟨i, h1⟩) "tool_calls"
        ∧ lookupField (out.get ⟨i, h2⟩) "tool_call_id"
            = lookupField (msgs.get ⟨i, h1⟩) "tool_call_id"
        ∧ lookupField (out.get ⟨i, h2⟩) "name"
            = lookupField (msgs.get ⟨i, h1⟩) "name" := by
  have hp := filterMessages_pointwise msgs out h
  exact ⟨hp.1, fun i h1 h2 => filterMessage_spec _ _ (hp.2 i h1 h2)⟩

/-- A message carrying a tool-call id and an extraneous key. -/
def c4msg : Msg :=
  [("role", Json.str "tool"), ("tool_call_id", Json.str "call_1"),
   ("internal_note", Json.str "drop me")]

def c4msgs : List Msg := [sampleMsg, c4msg]

/-- The projection of `c4msgs` (no `content` key in `c4msg`, so the empty
string is substituted; `internal_note` is dropped). -/
def c4out : List Msg :=
  [[("role", Json.str "user"), ("content", Json.str "hi")],
   [("role", Json.str "tool"), ("content", Json.str ""),
    ("tool_call_id", Json.str "call_1")]]

theorem litellm_message_projection_witness :
    filterMessages c4msgs = some c4out
    ∧ c4msgs.length = c4out.length
    ∧ ("internal_note" ∈ msgKeys (c4out.get ⟨1, by decide⟩)
        ↔ ("internal_note" = "role" ∨ "internal_note" = "content" ∨
            (("internal_note" = "tool_calls" ∨ "internal_note" = "tool_call_id"
              ∨ "internal_note" = "name")
              ∧ (lookupField (c4msgs.get ⟨1, by decide⟩) "internal_note").isSome = true))) := by
  have h := litellm_message_projection c4msgs c4out rfl
  exact ⟨rfl, h.1, (h.2 1 (by decide) (by decide)).1 "internal_note"⟩

/-! ## Claim C6: missing CRA_BASE_URL fails before any network call -/

/-- Claim C6: while `CRA_BASE_URL` is absent or empty, every call to
`context_retrieval_tool`, `upload_repository` or `delete_repository`
raises its domain error naming the missing setting, and the list of
issued requests is empty — the failure happens before any network call,
whatever the network would have answered. -/
theorem cra_missing_base_url
    (env : Env) (q : String) (mrq : Int) (u : String) (c : Option String)
    (rid : Int) (force : Bool) (net1 net2 net3 : NetOutcome)
    (h : env "CRA_BASE_URL" = none ∨ env "CRA_BASE_URL" = some "") :
    context_retrieval_tool env q mrq net1
      = (.error (.contextRetrievalError "CRA_BASE_URL environment variable is not set"), [])
    ∧ upload_repository env u c net2
      = (.error (.repositoryError "CRA_BASE_URL environment variable is not set"), [])
    ∧ delete_repository env rid force net3
      = (.error (.repositoryError "CRA_BASE_URL environment variable is not set"), []) := by
  have h1 : get_cra_retrieval_url env
      = .error (.contextRetrievalError "CRA_BASE_URL environment variable is not set") := by
    rcases h with h | h <;> simp [get_cra_retrieval_url, h]
  have h2 : get_cra_base_url env
      = .error (.repositoryError "CRA_BASE_URL environment variable is not set") := by
    rcases h with h | h <;> simp [get_cra_base_url, h]
  refine ⟨?_, ?_, ?_⟩
  · simp only [context_retrieval_tool, h1]
  · simp only [upload_repository, h2]
  · simp only [delete_repository, h2]

/-- An environment with no CRA settings at all. -/
def emptyEnv : Env := fun _ => none

theorem cra_missing_base_url_witness :
    context_retrieval_tool emptyEnv "find auth logic" 2 (.connectionError "refused")
      = (.error (.contextRetrievalError "CRA_BASE_URL environment variable is not set"), [])
    ∧ upload_repository emptyEnv "https://github.com/user/repo.git" none
        (.connectionError "refused")
      = (.error (.repositoryError "CRA_BASE_URL environment variable is not set"), [])
    ∧ delete_repository emptyEnv 123 false (.connectionError "refused")
      = (.error (.repositoryError "CRA_BASE_URL environment variable is not set"), []) :=
  cra_missing_base_url emptyEnv "find auth logic" 2 "https://github.com/user/repo.git" none
    123 false (.connectionError "refused") (.connectionError "refused")
    (.connectionError "refused") (Or.inl rfl)

/-! ## Claim C7: upload response validation -/

/-- Claim C7: for every 2xx response to `upload_repository` whose parsed
`data` payload lacks a `repository_id` field, the call raises a
`RepositoryError` whose message names the missing `repository_id` field;
when `repository_id` is present, the `data` mapping is returned. -/
theorem upload_repository_validates_repository_id
    (env : Env) (b u : String) (c : Option String) (resp : HttpResponse) (j d : Json)
    (hb : env "CRA_BASE_URL" = some b) (hb2 : b ≠ "")
    (hst : 200 ≤ resp.status ∧ resp.status < 300)
    (hbody : resp.body = .ok j) (hdata : j.getField "data" = some d) :
    (pyContainsKey d "repository_id" = some false →
        (upload_repository env u c (.response resp)).1
          = .error (.repositoryError
              ("Invalid upload response: missing \x27repository_id\x27 field. Got: "
                ++ pyStr d))
        ∧ ∃ pre post,
            "Invalid upload response: missing \x27repository_id\x27 field. Got: " ++ pyStr d
              = pre ++ "repository_id" ++ post)
    ∧ (pyContainsKey d "repository_id" = some true →
        (upload_repository env u c (.response resp)).1 = .ok d) := by
  have hurl : get_cra_base_url env = .ok b := by
    simp [get_cra_base_url, hb, hb2]
  have hstatus : ¬ (400 ≤ resp.status ∧ resp.status < 600) := by omega
  constructor
  · intro hmiss
    constructor
    · simp only [upload_repository, hurl, if_neg hstatus, hbody, hdata, hmiss]
    · exact ⟨"Invalid upload response: missing \x27",
        "\x27 field. Got: " ++ pyStr d, rfl⟩
  · intro hpres
    simp only [upload_repository, hurl, if_neg hstatus, hbody, hdata, hpres]

/-- An environment where only the base URL is configured. -/
def craEnv : Env :=
  fun k => if k = "CRA_BASE_URL" then some "http://cra.example" else none

/-- The spec example of an invalid upload response body:
`{"data": {"status": "ok"}}`. -/
def c7dataMissing : Json := Json.obj [("status", Json.str "ok")]

/-- A valid upload response payload carrying a `repository_id`. -/
def c7dataPresent : Json :=
  Json.obj [("repository_id", Json.num 7), ("status", Json.str "ok")]

def c7respMissing : HttpResponse :=
  { status := 200, body := .ok (Json.obj [("data", c7dataMissing)]),
    text := "\x7b\"data\": \x7b\"status\": \"ok\"\x7d\x7d" }

def c7respPresent : HttpResponse :=
  { status := 200, body := .ok (Json.obj [("data", c7dataPresent)]), text := "" }

theorem upload_repository_validates_repository_id_witness :
    ((upload_repository craEnv "https://github.com/user/repo.git" none
        (.response c7respMissing)).1
      = .error (.repositoryError
          ("Invalid upload response: missing \x27repository_id\x27 field. Got: "
            ++ pyStr c7dataMissing)))
    ∧ (upload_repository craEnv "https://github.com/user/repo.git" none
        (.response c7respPresent)).1 = .ok c7dataPresent := by
  have h1 := upload_repository_validates_repository_id craEnv "http://cra.example"
    "https://github.com/user/repo.git" none c7respMissing (Json.obj [("data", c7dataMissing)])
    c7dataMissing rfl (by decide) (by decide) rfl rfl
  have h2 := upload_repository_validates_repository_id craEnv "http://cra.example"
    "https://github.com/user/repo.git" none c7respPresent (Json.obj [("data", c7dataPresent)])
    c7dataPresent rfl (by decide) (by decide) rfl rfl
  exact ⟨(h1.1 rfl).1, h2.2 rfl⟩

/-! ## Claim C8: successful context retrieval returns the data field -/

/-- Claim C8: for every 2xx response with a valid JSON body received by
`context_retrieval_tool`, the function returns exactly the value of the
response envelope `data` field. -/
theorem context_retrieval_returns_data
    (env : Env) (b rid : String) (n : Int) (q : String) (mrq : Int)
    (resp : HttpResponse) (j d : Json)
    (hb : env "CRA_BASE_URL" = some b) (hb2 : b ≠ "")
    (hr : env "CRA_REPOSITORY_ID" = some rid) (hr2 : rid ≠ "")
    (hrn : pyInt rid = some n)
    (hst : 200 ≤ resp.status ∧ resp.status < 300)
    (hbody : resp.body = .ok j) (hdata : j.getField "data" = some d) :
    (context_retrieval_tool env q mrq (.response resp)).1 = .ok d := by
  have hurl : get_cra_retrieval_url env = .ok (b ++ "/context/retrieve") := by
    simp [get_cra_retrieval_url, hb, hb2]
  have hstatus : ¬ (400 ≤ resp.status ∧ resp.status < 600) := by omega
  simp only [context_retrieval_tool, hurl, hr, if_neg hr2, hrn, if_neg hstatus,
    hbody, hdata]

/-- An environment configuring both CRA settings. -/
def craEnvWithRepo : Env :=
  fun k =>
    if k = "CRA_BASE_URL" then some "http://cra.example"
    else if k = "CRA_REPOSITORY_ID" then some "1" else none

/-- The single context snippet of the spec mock example. -/
def c8snippet : Json :=
  Json.obj [("relative_path", Json.str "auth.py"), ("content", Json.str "..."),
    ("start_line_number", Json.num 10), ("end_line_number", Json.num 20)]

/-- The `data` payload of the spec mock example. -/
def c8data : Json :=
  Json.obj [("contexts", Json.arr [c8snippet]), ("total_contexts", Json.num 1)]

def c8resp : HttpResponse :=
  { status := 200, body := .ok (Json.obj [("data", c8data)]), text := "" }

theorem context_retrieval_returns_data_witness :
    (context_retrieval_tool craEnvWithRepo "find auth logic" 2 (.response c8resp)).1
      = .ok c8data
    ∧ c8data.getField "contexts" = some (Json.arr [c8snippet])
    ∧ c8data.getField "total_contexts" = some (Json.num 1)
    ∧ c8snippet.getField "relative_path" = some (Json.str "auth.py")
    ∧ c8snippet.getField "start_line_number" = some (Json.num 10)
    ∧ c8snippet.getField "end_line_number" = some (Json.num 20) :=
  ⟨context_retrieval_returns_data craEnvWithRepo "http://cra.example" "1" 1
      "find auth logic" 2 c8resp (Json.obj [("data", c8data)]) c8data
      rfl (by decide) rfl (by decide) rfl (by decide) rfl rfl,
    rfl, rfl, rfl, rfl, rfl⟩

/-! ## Claim C9: error-status reporting on non-2xx responses -/

/-- The environment and response of the C9 failing input: both settings
configured, the server answers 404 with a JSON body whose `error` field
explains the failure. -/
def c9resp : HttpResponse :=
  { status := 404, body := .ok (Json.obj [("error", Json.str "repository not found")]),
    text := "\x7b\"error\": \"repository not found\"\x7d" }

/-- Claim C9 (failing input): on a 404 with body
`{"error": "repository not found"}`, `context_retrieval_tool` raises
`ContextRetrievalError("CRA returned error status unknown")` — the
message contains neither the HTTP status nor the extracted `error`
message nor the raw body, because the handler guards the extraction with
`if response:` and formats the status with
`response.status_code if response else "unknown"`, and `requests`
Response truthiness is `status_code < 400`, which is always false for the
responses that reach this handler. -/
theorem context_retrieval_error_status_bug :
    (context_retrieval_tool craEnvWithRepo "find auth logic" 2 (.response c9resp)).1
      = .error (.contextRetrievalError "CRA returned error status unknown") := by
  rfl

/-- For contrast, the upload and delete handlers read `status_code`
directly, so they do include the status and the extracted `error` field
(the intended behaviour the context-retrieval handler misses). -/
theorem upload_delete_error_status_report
    (env : Env) (b u : String) (c : Option String) (rid : Int) (force : Bool)
    (resp : HttpResponse) (j emsg : Json)
    (hb : env "CRA_BASE_URL" = some b) (hb2 : b ≠ "")
    (hst : 400 ≤ resp.status ∧ resp.status < 600)
    (hbody : resp.body = .ok j) (herr : j.getField "error" = some emsg) :
    (upload_repository env u c (.response resp)).1
      = .error (.repositoryError
          ("Upload failed with status " ++ toString resp.status ++ ": " ++ pyStr emsg))
    ∧ (delete_repository env rid force (.response resp)).1
      = .error (.repositoryError
          ("Deletion failed with status " ++ toString resp.status ++ ": " ++ pyStr emsg)) := by
  have hurl : get_cra_base_url env = .ok b := by
    simp [get_cra_base_url, hb, hb2]
  constructor
  · simp only [upload_repository, hurl, if_pos hst, hbody, herr]
  · simp only [delete_repository, hurl, if_pos hst, hbody, herr]

theorem upload_delete_error_status_report_witness :
    (upload_repository craEnv "https://github.com/user/repo.git" none
        (.response c9resp)).1
      = .error (.repositoryError
          ("Upload failed with status " ++ toString (404 : Nat) ++ ": "
            ++ pyStr (Json.str "repository not found")))
    ∧ (delete_repository craEnv 7 true (.response c9resp)).1
      = .error (.repositoryError
          ("Deletion failed with status " ++ toString (404 : Nat) ++ ": "
            ++ pyStr (Json.str "repository not found"))) :=
  upload_delete_error_status_report craEnv "http://cra.example"
    "https://github.com/user/repo.git" none 7 true c9resp
    (Json.obj [("error", Json.str "repository not found")])
    (Json.str "repository not found") rfl (by decide) (by decide) rfl rfl

/-! ## Claim C10: repository-id validation in context retrieval -/

/-- Claim C10: while `CRA_BASE_URL` is set and non-empty, a
`CRA_REPOSITORY_ID` that is set to a non-empty string `int()` cannot parse
makes `context_retrieval_tool` raise the plain ValueError of the integer
conversion (not a `ContextRetrievalError`) before any network request,
whereas a missing or empty `CRA_REPOSITORY_ID` produces the domain error
(also before any network request). -/
theorem context_retrieval_repository_id_validation
    (env : Env) (b q : String) (mrq : Int) (net : NetOutcome)
    (hb : env "CRA_BASE_URL" = some b) (hb2 : b ≠ "") :
    (∀ rid, env "CRA_REPOSITORY_ID" = some rid → rid ≠ "" → pyInt rid = none →
        context_retrieval_tool env q mrq net
          = (.error (.valueError (intParseErrorMessage rid)), []))
    ∧ (env "CRA_REPOSITORY_ID" = none ∨ env "CRA_REPOSITORY_ID" = some "" →
        context_retrieval_tool env q mrq net
          = (.error (.contextRetrievalError
              "CRA_REPOSITORY_ID environment variable is not set. Repository must be uploaded first."),
            [])) := by
  have hurl : get_cra_retrieval_url env = .ok (b ++ "/context/retrieve") := by
    simp [get_cra_retrieval_url, hb, hb2]
  constructor
  · intro rid hr hr2 hparse
    simp only [context_retrieval_tool, hurl, hr, if_neg hr2, hparse]
  · intro h
    rcases h with h | h
    · simp only [context_retrieval_tool, hurl, h]
    · simp [context_retrieval_tool, hurl, h]

/-- An environment whose repository id is a non-numeric string. -/
def craEnvBadRepo : Env :=
  fun k =>
    if k = "CRA_BASE_URL" then some "http://cra.example"
    else if k = "CRA_REPOSITORY_ID" then some "abc" else none

/-- An environment whose repository id is set but empty. -/
def craEnvEmptyRepo : Env :=
  fun k =>
    if k = "CRA_BASE_URL" then some "http://cra.example"
    else if k = "CRA_REPOSITORY_ID" then some "" else none

theorem context_retrieval_repository_id_validation_witness :
    context_retrieval_tool craEnvBadRepo "find auth logic" 2 (.connectionError "refused")
      = (.error (.valueError (intParseErrorMessage "abc")), [])
    ∧ context_retrieval_tool craEnvEmptyRepo "find auth logic" 2 (.connectionError "refused")
      = (.error (.contextRetrievalError
          "CRA_REPOSITORY_ID environment variable is not set. Repository must be uploaded first."),
        []) :=
  ⟨(context_retrieval_repository_id_validation craEnvBadRepo "http://cra.example"
      "find auth logic" 2 (.connectionError "refused") rfl (by decide)).1
      "abc" rfl (by decide) rfl,
    (context_retrieval_repository_id_validation craEnvEmptyRepo "http://cra.example"
      "find auth logic" 2 (.connectionError "refused") rfl (by decide)).2
      (Or.inr rfl)⟩
